import Mathlib

/-!
Shallow embedding of the movie-sentiment API service (src/app.py, src/database.py).

The Flask endpoints and the MongoDB helper functions are translated into pure
Lean functions over an explicit store state (`List Record` standing for the
`results` collection) and explicit environment parameters standing for the
outcomes of the external collaborators (Redis queue, ML service, MongoDB).
Python `str.strip` and `str.lower` are modelled by the structurally recursive
`trimStr` and `lowerStr` (ASCII lowering, which covers every string the
endpoints compare); MongoDB's case-insensitive escaped-regex match is modelled
as a case-insensitive substring test.  Confidences are rationals.
-/

namespace MovieSentiment

/-- One row of the validated CSV batch (`reviews_batch` entries in `analyze_csv`). -/
structure ReviewItem where
  text : String
  movie_name : String
deriving DecidableEq

/-- One element of the ML service's `results` array in a `/process-batch` response. -/
structure MLItem where
  movie_name : String
  sentiment : String
  confidence : ℚ
deriving DecidableEq

/-- A document of the `results` collection.  The synchronous path always writes
documents with `job_id = none` and `status = none`; the optional fields allow
documents written by an external worker to be represented as well. -/
structure Record where
  movie_name : String
  sentiment : String
  confidence : ℚ
  timestamp : String
  processed_by : String
  processing_mode : String
  job_id : Option String
  status : Option String
deriving DecidableEq

/-- The state of an RQ job as seen through `Job.fetch`. -/
structure JobHandle where
  status : String
  created_at : Option String := none
  started_at : Option String := none
  ended_at : Option String := none
  result_sentiment : Option String := none
  result_confidence : Option ℚ := none
deriving DecidableEq

/-- Python `str.lower` restricted to ASCII, per character. -/
def lowerStr (s : String) : String := ⟨s.data.map Char.toLower⟩

/-- Python `str.strip`: drop whitespace from both ends. -/
def trimStr (s : String) : String :=
  ⟨((s.data.dropWhile Char.isWhitespace).reverse.dropWhile Char.isWhitespace).reverse⟩

/-- Substring test on character lists (`needle` occurs inside `hay`). -/
def containsSub (needle : List Char) : List Char → Bool
  | [] => needle.isEmpty
  | c :: t => needle.isPrefixOf (c :: t) || containsSub needle t

/-- MongoDB `{$regex: re.escape(pat), $options: "i"}` applied to `movie_name`:
a case-insensitive substring match. -/
def matchesName (pat : String) (r : Record) : Bool :=
  containsSub (lowerStr pat).data (lowerStr r.movie_name).data

/-! ### database.py -/

/-- Embedding of `database.insert_results`: raises when the collection handle is
`None` or when the `insert_many` call fails, is a silent no-op on an empty
batch, and otherwise appends the batch and reports the inserted count. -/
def insert_results (dbConnected writeOk : Bool) (store : List Record)
    (batch : List Record) : Except String (List Record × Option Nat) :=
  if dbConnected = false then .error "Local MongoDB not connected"
  else if batch = [] then .ok (store, none)
  else if writeOk = false then .error "Failed to insert results"
  else .ok (store ++ batch, some batch.length)

/-- Embedding of `database.fetch_results_from_db`: all documents, or `[]` when
the connection failed at startup. -/
def fetch_results_from_db (dbConnected : Bool) (store : List Record) : List Record :=
  if dbConnected then store else []

/-- Embedding of `database.clear_results_collection`. -/
def clear_results_collection (dbConnected : Bool) (store : List Record) :
    List Record × Nat :=
  if dbConnected then ([], store.length) else (store, 0)

/-- Embedding of `database.search_movies_by_sentiment`: the query matches
`movie_name` by case-insensitive substring when a non-blank name is given and
matches `sentiment` exactly (stripped and lowered) when a non-blank sentiment
is given. -/
def search_movies_by_sentiment (dbConnected : Bool) (store : List Record)
    (movie_name sentiment : Option String) : List Record :=
  if dbConnected = false then []
  else
    let nameFilter : Option String :=
      match movie_name with
      | some m => if trimStr m ≠ "" then some (trimStr m) else none
      | none => none
    let sentFilter : Option String :=
      match sentiment with
      | some s => if trimStr s ≠ "" then some (lowerStr (trimStr s)) else none
      | none => none
    store.filter fun r =>
      (match nameFilter with
       | some m => matchesName m r
       | none => true) &&
      (match sentFilter with
       | some s => r.sentiment = s
       | none => true)

/-- One element of the first `$group` stage of the summary pipeline: a
`(movie_name, sentiment)` key with its document count and mean confidence. -/
structure Stage1Entry where
  movie_name : String
  sentiment : String
  count : ℕ
  avg_confidence : ℚ
deriving DecidableEq

/-- One element of the `sentiments` array pushed by the second `$group` stage. -/
structure SentimentEntry where
  sentiment : String
  count : ℕ
  avg_confidence : ℚ
deriving DecidableEq

/-- One summary group (`_id` is the movie name). -/
structure SummaryGroup where
  movie_name : String
  sentiments : List SentimentEntry
  total_reviews : ℕ
deriving DecidableEq

/-- Grouping key of the first `$group` stage. -/
def key1 (r : Record) : String × String := (r.movie_name, r.sentiment)

/-- First `$group` stage: group by `(movie_name, sentiment)`, computing
`count = {$sum: 1}` and `avg_confidence = {$avg: "$confidence"}`. -/
def stage1 (l : List Record) : List Stage1Entry :=
  ((l.map key1).dedup).map fun k =>
    { movie_name := k.1
      sentiment := k.2
      count := (l.filter fun r => key1 r = k).length
      avg_confidence :=
        ((l.filter fun r => key1 r = k).map Record.confidence).sum /
          ((l.filter fun r => key1 r = k).length : ℚ) }

/-- Second `$group` stage: regroup by movie name, pushing the per-sentiment
entries and summing the counts into `total_reviews`. -/
def stage2 (s : List Stage1Entry) : List SummaryGroup :=
  ((s.map Stage1Entry.movie_name).dedup).map fun m =>
    { movie_name := m
      sentiments := (s.filter fun e => e.movie_name = m).map fun e =>
        { sentiment := e.sentiment, count := e.count, avg_confidence := e.avg_confidence }
      total_reviews := ((s.filter fun e => e.movie_name = m).map Stage1Entry.count).sum }

/-- Order of the final `{$sort: {_id: 1}}` stage: ascending movie name. -/
def groupLe (a b : SummaryGroup) : Prop := a.movie_name.data ≤ b.movie_name.data

instance : DecidableRel groupLe := fun a b =>
  (inferInstance : Decidable (a.movie_name.data ≤ b.movie_name.data))

instance : IsTotal SummaryGroup groupLe :=
  ⟨fun a b => le_total a.movie_name.data b.movie_name.data⟩

instance : IsTrans SummaryGroup groupLe := ⟨fun _ _ _ h h₂ => le_trans h h₂⟩

/-- Embedding of `database.get_sentiment_summary`: optional `$match` on the
movie name, the two `$group` stages, then `$sort` by movie name ascending;
`[]` when the connection failed at startup. -/
def get_sentiment_summary (dbConnected : Bool) (store : List Record)
    (movie_name : Option String) : List SummaryGroup :=
  if dbConnected = false then []
  else
    let matched :=
      match movie_name with
      | some m => if trimStr m ≠ "" then store.filter (matchesName (trimStr m)) else store
      | none => store
    List.insertionSort groupLe (stage2 (stage1 matched))

/-- Embedding of `database.get_database_stats` (the fields the claims need). -/
structure DbStats where
  status : String
  total_documents : ℕ := 0
  unique_movies : ℕ := 0
  positive_reviews : ℕ := 0
  negative_reviews : ℕ := 0
deriving DecidableEq

def get_database_stats (dbConnected : Bool) (store : List Record) : DbStats :=
  if dbConnected = false then { status := "disconnected" }
  else
    { status := "connected"
      total_documents := store.length
      unique_movies := ((store.map Record.movie_name).dedup).length
      positive_reviews := (store.filter fun r => r.sentiment = "positive").length
      negative_reviews := (store.filter fun r => r.sentiment = "negative").length }

/-! ### app.py: the analyze-csv dispatch -/

/-- Outcome of the one `requests.post` transport call to the ML service. -/
inductive MLOutcome where
  | timeout : MLOutcome
  | connectionFailure : MLOutcome
  | response (statusCode : Nat) (results : List MLItem) : MLOutcome
deriving DecidableEq

/-- Environment of one `analyze_csv` call: queue availability (the sticky
startup probe), the outcome an enqueue attempt would have, the ML transport
outcome, database connectivity, whether the insert write succeeds, and the
`datetime.now().isoformat()` value. -/
structure DispatchEnv where
  queueAvailable : Bool
  enqueueResult : Option String
  mlOutcome : MLOutcome
  dbConnected : Bool
  writeOk : Bool
  now : String
deriving DecidableEq

/-- The JSON body `analyze_csv` answers with, abstracted to its shape. -/
inductive AnalyzeResponse where
  | backgroundQueued (job_id : String)
      (total_rows cleaned_rows queued_for_processing : Nat) : AnalyzeResponse
  | syncSuccess (processed_count total_rows cleaned_rows stored_count : Nat) : AnalyzeResponse
  | httpError (code : Nat) (msg : String) : AnalyzeResponse
deriving DecidableEq

/-- Observable effects of one `analyze_csv` call: the response, the store after
the call, the jobs enqueued (task name and payload), the ML service calls made,
and the insert batches attempted. -/
structure DispatchTrace where
  response : AnalyzeResponse
  store : List Record
  enqueuedJobs : List (String × List ReviewItem)
  mlCalls : List (List ReviewItem)
  insertCalls : List (List Record)
deriving DecidableEq

/-- Line 148 of `app.py`: the dispatch decision. -/
def use_background_processing (queueAvailable : Bool) (batch : List ReviewItem) : Bool :=
  queueAvailable && decide (batch.length > 1000)

/-- Lines 193-198 of `app.py`: stamp one ML result with the call metadata. -/
def stampResult (now : String) (m : MLItem) : Record :=
  { movie_name := m.movie_name
    sentiment := m.sentiment
    confidence := m.confidence
    timestamp := now
    processed_by := "api_service_sync"
    processing_mode := "synchronous"
    job_id := none
    status := none }

/-- Lines 171-224 of `app.py`: the synchronous path of `analyze_csv`. -/
def syncDispatch (env : DispatchEnv) (original_count : Nat) (batch : List ReviewItem)
    (store : List Record) : DispatchTrace :=
  match env.mlOutcome with
  | .timeout =>
      { response := .httpError 504 "ML service timeout"
        store := store, enqueuedJobs := [], mlCalls := [batch], insertCalls := [] }
  | .connectionFailure =>
      { response := .httpError 503 "Cannot connect to ML service"
        store := store, enqueuedJobs := [], mlCalls := [batch], insertCalls := [] }
  | .response code results =>
      if code = 200 then
        if results = [] then
          { response := .httpError 500 "ML service returned no results"
            store := store, enqueuedJobs := [], mlCalls := [batch], insertCalls := [] }
        else
          let stamped := results.map (stampResult env.now)
          match insert_results env.dbConnected env.writeOk store stamped with
          | .ok (newStore, cnt) =>
              { response := .syncSuccess stamped.length original_count batch.length (cnt.getD 0)
                store := newStore, enqueuedJobs := [], mlCalls := [batch]
                insertCalls := [stamped] }
          | .error _ =>
              { response := .httpError 500 "Results processed but failed to save to database"
                store := store, enqueuedJobs := [], mlCalls := [batch]
                insertCalls := [stamped] }
      else
        { response := .httpError 500 ("ML service returned error: " ++ toString code)
          store := store, enqueuedJobs := [], mlCalls := [batch], insertCalls := [] }

/-- Lines 148-224 of `app.py`: the dispatch of a validated non-empty batch.
When the decision is background and the enqueue succeeds, one job carrying the
whole batch is enqueued and the call returns; when the enqueue raises, the code
falls through to the synchronous path. -/
def analyze_csv_dispatch (env : DispatchEnv) (original_count : Nat)
    (batch : List ReviewItem) (store : List Record) : DispatchTrace :=
  if use_background_processing env.queueAvailable batch then
    match env.enqueueResult with
    | some jid =>
        { response := .backgroundQueued jid original_count batch.length batch.length
          store := store
          enqueuedJobs := [("worker_tasks.process_sentiment_batch", batch)]
          mlCalls := [], insertCalls := [] }
    | none => syncDispatch env original_count batch store
  else syncDispatch env original_count batch store

/-! ### app.py: query endpoints -/

/-- Response of `GET /api/results`. -/
structure ResultsResponse where
  results : List Record
  total_count : ℕ
  success : Bool
  error : Option String
deriving DecidableEq

/-- Embedding of the `get_results` endpoint: it returns whatever
`fetch_results_from_db` yields, unconditionally successfully (the database
helper swallows its own failures and returns `[]`). -/
def get_results (dbConnected : Bool) (store : List Record) : ResultsResponse :=
  let rs := fetch_results_from_db dbConnected store
  { results := rs, total_count := rs.length, success := true, error := none }

/-- Response of `GET /api/search`. -/
inductive SearchResponse where
  | badRequest (msg : String) : SearchResponse
  | backgroundQueued (job_id : String) : SearchResponse
  | ok (results : List Record) (total_count : ℕ) : SearchResponse
deriving DecidableEq

/-- Embedding of the `search_movies` endpoint (lines 232-281 of `app.py`):
strip the name, strip-and-lower the sentiment, reject an invalid sentiment
with 400 before anything else, optionally hand off to the background-search
queue, and otherwise query the database. -/
def search_movies (queueAvailable : Bool) (enqueueResult : Option String)
    (backgroundFlag : Bool) (dbConnected : Bool) (store : List Record)
    (movie_name_param sentiment_param : String) : SearchResponse :=
  let movie_name := trimStr movie_name_param
  let sentiment := lowerStr (trimStr sentiment_param)
  if sentiment ≠ "" ∧ sentiment ≠ "positive" ∧ sentiment ≠ "negative" then
    .badRequest "Invalid sentiment"
  else
    match (if queueAvailable && backgroundFlag then enqueueResult else none) with
    | some jid => .backgroundQueued jid
    | none =>
        let results := search_movies_by_sentiment dbConnected store
          (if movie_name ≠ "" then some movie_name else none)
          (if sentiment ≠ "" then some sentiment else none)
        .ok results results.length

/-- Response of `GET /api/job/<job_id>`. -/
inductive JobResp where
  | ok (job_id : String) (handle : JobHandle) : JobResp
  | err (code : Nat) (msg : String) : JobResp
deriving DecidableEq

/-- Embedding of the `get_job_status` endpoint (lines 342-363 of `app.py`):
503 when the queue was unavailable at startup; otherwise `Job.fetch`, whose
failure for an unknown id is caught by the blanket handler and answered
with 500. -/
def get_job_status (queueAvailable : Bool) (jobs : List (String × JobHandle))
    (job_id : String) : JobResp :=
  if queueAvailable = false then .err 503 "Background processing not available"
  else
    match jobs.lookup job_id with
    | some h => .ok job_id h
    | none => .err 500 ("Failed to get job status: No such job: " ++ job_id)

/-- Modelled from the spec (section 4.3), not from the source: the
`reconcile` operation the specification requires before records are returned
to a caller.  For each record holding a `job_id` and a non-terminal status it
fetches the `JobHandle` and merges a finished or failed outcome into the
record.  No function of the repository implements this; the definition exists
to compare the specified read path with the implemented one. -/
def reconcileSpec (jobs : List (String × JobHandle)) (records : List Record) :
    List Record :=
  records.map fun r =>
    match r.job_id with
    | none => r
    | some jid =>
        if r.status = some "queued" ∨ r.status = some "started" then
          match jobs.lookup jid with
          | some h =>
              if h.status = "finished" then
                { r with
                  sentiment := h.result_sentiment.getD r.sentiment
                  confidence := h.result_confidence.getD r.confidence
                  status := some "finished" }
              else if h.status = "failed" then { r with status := some "failed" }
              else r
          | none => { r with status := some "failed" }
        else r

/-! ### Helper lemmas: sums over grouped fibers -/

lemma sum_map_add_distrib {κ : Type} (p q : κ → ℕ) (D : List κ) :
    (D.map fun k => p k + q k).sum = (D.map p).sum + (D.map q).sum := by
  induction D with
  | nil => simp
  | cons d D ih => simp [ih]; omega

lemma sum_if_zero {κ : Type} [DecidableEq κ] (c : κ) (w : ℕ) (D : List κ)
    (h : c ∉ D) : (D.map fun k => if c = k then w else 0).sum = 0 := by
  induction D with
  | nil => simp
  | cons d D ih =>
      simp only [List.mem_cons, not_or] at h
      simp [h.1, ih h.2]

lemma sum_if_single {κ : Type} [DecidableEq κ] (c : κ) (w : ℕ) (D : List κ)
    (hnd : D.Nodup) (hmem : c ∈ D) :
    (D.map fun k => if c = k then w else 0).sum = w := by
  induction D with
  | nil => simp at hmem
  | cons d D ih =>
      rcases List.mem_cons.mp hmem with rfl | hm
      · have hcd : c ∉ D := (List.nodup_cons.mp hnd).1
        simp [sum_if_zero c w D hcd]
      · have hne : c ≠ d := by
          rintro rfl; exact (List.nodup_cons.mp hnd).1 hm
        simp [hne, ih (List.nodup_cons.mp hnd).2 hm]

/-- Summing a weight over the fibers of a grouping key, fiber by fiber, gives
the total weight: the two `$group` stages lose and double-count nothing. -/
lemma sum_fiber {α κ : Type} [DecidableEq κ] (f : α → κ) (g : α → ℕ) (l : List α) :
    (((l.map f).dedup).map fun k => ((l.filter fun x => f x = k).map g).sum).sum
      = (l.map g).sum := by
  induction l with
  | nil => simp
  | cons a t ih =>
      have hsplit : (fun k => (((a :: t).filter fun x => f x = k).map g).sum)
          = fun k => (if f a = k then g a else 0)
              + ((t.filter fun x => f x = k).map g).sum := by
        funext k
        by_cases h : f a = k
        · simp [List.filter_cons, h]
        · simp [List.filter_cons, h]
      by_cases hmem : f a ∈ t.map f
      · have hd : ((a :: t).map f).dedup = (t.map f).dedup := by
          rw [List.map_cons]; exact List.dedup_cons_of_mem hmem
        rw [hd, hsplit, sum_map_add_distrib,
          sum_if_single (f a) (g a) ((t.map f).dedup) (List.nodup_dedup _)
            (List.mem_dedup.mpr hmem), ih]
        simp
      · have hd : ((a :: t).map f).dedup = f a :: (t.map f).dedup := by
          rw [List.map_cons]; exact List.dedup_cons_of_not_mem hmem
        have hfil : (t.filter fun x => f x = f a) = [] := by
          rw [List.filter_eq_nil_iff]
          intro x hx
          simp only [decide_eq_true_eq]
          intro hfx
          exact hmem (hfx ▸ List.mem_map_of_mem f hx)
        rw [hd, hsplit]
        simp only [List.map_cons, List.sum_cons]
        rw [sum_map_add_distrib,
          sum_if_zero (f a) (g a) ((t.map f).dedup)
            (fun hc => hmem (List.mem_dedup.mp hc)), ih]
        simp [hfil]

/-- The length version of `sum_fiber`: fiber sizes sum to the list length. -/
lemma sum_fiber_length {α κ : Type} [DecidableEq κ] (f : α → κ) (l : List α) :
    (((l.map f).dedup).map fun k => (l.filter fun x => f x = k).length).sum
      = l.length := by
  have h := sum_fiber f (fun _ => 1) l
  simpa [List.map_const', List.sum_replicate] using h

/-! ### Helper lemmas: strings -/

lemma dropWhile_head_false {α : Type} {p : α → Bool} {l : List α} {c : α}
    (h : l.head? = some c) (hp : p c = false) : l.dropWhile p = l := by
  cases l with
  | nil => simp at h
  | cons a t =>
      obtain rfl : a = c := by simpa using h
      simp [List.dropWhile_cons, hp]

lemma dropWhile_head_not {α : Type} (p : α → Bool) (l : List α)
    (h : l.dropWhile p ≠ []) :
    ∃ c, (l.dropWhile p).head? = some c ∧ p c = false := by
  cases hdl : l.dropWhile p with
  | nil => exact absurd hdl h
  | cons a t =>
      refine ⟨a, by simp, ?_⟩
      have hnot := List.head?_dropWhile_not p l
      rw [hdl] at hnot
      simpa using hnot

lemma dropWhile_idem {α : Type} (p : α → Bool) (l : List α) :
    (l.dropWhile p).dropWhile p = l.dropWhile p := by
  by_cases h : l.dropWhile p = []
  · simp [h]
  · obtain ⟨c, hc, hpc⟩ := dropWhile_head_not p l h
    exact dropWhile_head_false hc hpc

/-- Python `str.strip` is idempotent: trimming a trimmed string changes nothing. -/
lemma trimStr_idem (s : String) : trimStr (trimStr s) = trimStr s := by
  unfold trimStr
  congr 1
  set t₁ := s.data.dropWhile Char.isWhitespace with ht₁
  set u := t₁.reverse.dropWhile Char.isWhitespace with hu
  show ((u.reverse.dropWhile Char.isWhitespace).reverse.dropWhile
      Char.isWhitespace).reverse = u.reverse
  by_cases hun : u = []
  · simp [hun]
  · have ht₁n : t₁ ≠ [] := by
      intro h0
      apply hun
      rw [hu, h0]
      simp
    obtain ⟨c, hc, hpc⟩ := dropWhile_head_not Char.isWhitespace s.data (ht₁ ▸ ht₁n)
    rw [← ht₁] at hc
    have hlast : u.getLast? = some c := by
      obtain ⟨pre, hpre⟩ := List.dropWhile_suffix (l := t₁.reverse) Char.isWhitespace
      rw [← hu] at hpre
      calc u.getLast? = (pre ++ u).getLast? :=
            (List.getLast?_append_of_ne_nil pre hun).symm
        _ = t₁.reverse.getLast? := by rw [hpre]
        _ = t₁.head? := List.getLast?_reverse t₁
        _ = some c := hc
    have hstep1 : u.reverse.dropWhile Char.isWhitespace = u.reverse := by
      apply dropWhile_head_false (c := c) _ hpc
      rw [List.head?_reverse]
      exact hlast
    have hstep2 : u.dropWhile Char.isWhitespace = u := by
      rw [hu]
      exact dropWhile_idem _ _
    rw [hstep1, List.reverse_reverse, hstep2]

lemma containsSub_nil (h : List Char) : containsSub [] h = true := by
  cases h <;> simp [containsSub, List.isPrefixOf]

/-- An empty pattern matches every movie name. -/
lemma matchesName_nil (r : Record) : matchesName "" r = true := by
  have hdata : (lowerStr "").data = [] := rfl
  rw [matchesName, hdata]
  exact containsSub_nil _

/-! ### Helper lemmas: the dispatch paths of analyze-csv -/

lemma analyze_sync_of_not_bg (env : DispatchEnv) (oc : Nat) (batch : List ReviewItem)
    (store : List Record)
    (h : use_background_processing env.queueAvailable batch = false ∨
      env.enqueueResult = none) :
    analyze_csv_dispatch env oc batch store = syncDispatch env oc batch store := by
  rcases h with h | h
  · simp [analyze_csv_dispatch, h]
  · by_cases hub : use_background_processing env.queueAvailable batch
    · simp [analyze_csv_dispatch, hub, h]
    · simp [analyze_csv_dispatch, hub]

lemma analyze_bg (env : DispatchEnv) (oc : Nat) (batch : List ReviewItem)
    (store : List Record) (jid : String)
    (hub : use_background_processing env.queueAvailable batch = true)
    (henq : env.enqueueResult = some jid) :
    analyze_csv_dispatch env oc batch store =
      { response := .backgroundQueued jid oc batch.length batch.length
        store := store
        enqueuedJobs := [("worker_tasks.process_sentiment_batch", batch)]
        mlCalls := [], insertCalls := [] } := by
  simp [analyze_csv_dispatch, hub, henq]

lemma syncDispatch_timeout (env : DispatchEnv) (oc : Nat) (batch : List ReviewItem)
    (store : List Record) (h : env.mlOutcome = .timeout) :
    syncDispatch env oc batch store =
      { response := .httpError 504 "ML service timeout"
        store := store, enqueuedJobs := [], mlCalls := [batch], insertCalls := [] } := by
  simp [syncDispatch, h]

lemma syncDispatch_connectionFailure (env : DispatchEnv) (oc : Nat)
    (batch : List ReviewItem) (store : List Record)
    (h : env.mlOutcome = .connectionFailure) :
    syncDispatch env oc batch store =
      { response := .httpError 503 "Cannot connect to ML service"
        store := store, enqueuedJobs := [], mlCalls := [batch], insertCalls := [] } := by
  simp [syncDispatch, h]

lemma syncDispatch_upstream (env : DispatchEnv) (oc : Nat) (batch : List ReviewItem)
    (store : List Record) (code : Nat) (results : List MLItem)
    (h : env.mlOutcome = .response code results) (hc : code ≠ 200) :
    syncDispatch env oc batch store =
      { response := .httpError 500 ("ML service returned error: " ++ toString code)
        store := store, enqueuedJobs := [], mlCalls := [batch], insertCalls := [] } := by
  simp [syncDispatch, h, hc]

lemma syncDispatch_noResults (env : DispatchEnv) (oc : Nat) (batch : List ReviewItem)
    (store : List Record) (h : env.mlOutcome = .response 200 []) :
    syncDispatch env oc batch store =
      { response := .httpError 500 "ML service returned no results"
        store := store, enqueuedJobs := [], mlCalls := [batch], insertCalls := [] } := by
  simp [syncDispatch, h]

lemma syncDispatch_persistFail (env : DispatchEnv) (oc : Nat) (batch : List ReviewItem)
    (store : List Record) (results : List MLItem)
    (h : env.mlOutcome = .response 200 results) (hr : results ≠ [])
    (hdb : env.dbConnected = false ∨ env.writeOk = false) :
    syncDispatch env oc batch store =
      { response := .httpError 500 "Results processed but failed to save to database"
        store := store, enqueuedJobs := [], mlCalls := [batch]
        insertCalls := [results.map (stampResult env.now)] } := by
  have hst : results.map (stampResult env.now) ≠ [] := by
    simpa using hr
  rcases hdb with hdb | hdb
  · simp [syncDispatch, h, hr, insert_results, hdb, hst]
  · by_cases hconn : env.dbConnected = false
    · simp [syncDispatch, h, hr, insert_results, hconn, hst]
    · simp [syncDispatch, h, hr, insert_results, hconn, hdb, hst]

lemma syncDispatch_insertOk (env : DispatchEnv) (oc : Nat) (batch : List ReviewItem)
    (store : List Record) (results : List MLItem)
    (h : env.mlOutcome = .response 200 results) (hr : results ≠ [])
    (hdb : env.dbConnected = true) (hw : env.writeOk = true) :
    syncDispatch env oc batch store =
      { response := .syncSuccess results.length oc batch.length results.length
        store := store ++ results.map (stampResult env.now)
        enqueuedJobs := [], mlCalls := [batch]
        insertCalls := [results.map (stampResult env.now)] } := by
  have hst : results.map (stampResult env.now) ≠ [] := by
    simpa using hr
  simp [syncDispatch, h, hr, insert_results, hdb, hw, hst]

lemma syncDispatch_mlCalls (env : DispatchEnv) (oc : Nat) (batch : List ReviewItem)
    (store : List Record) : (syncDispatch env oc batch store).mlCalls = [batch] := by
  cases hml : env.mlOutcome with
  | timeout => rw [syncDispatch_timeout env oc batch store hml]
  | connectionFailure => rw [syncDispatch_connectionFailure env oc batch store hml]
  | response code results =>
      by_cases hc : code = 200
      · subst hc
        by_cases hr : results = []
        · subst hr; rw [syncDispatch_noResults env oc batch store hml]
        · by_cases hdb : env.dbConnected = true
          · by_cases hw : env.writeOk = true
            · rw [syncDispatch_insertOk env oc batch store results hml hr hdb hw]
            · rw [syncDispatch_persistFail env oc batch store results hml hr
                (Or.inr (Bool.not_eq_true _ ▸ Bool.eq_false_iff.mpr hw))]
          · rw [syncDispatch_persistFail env oc batch store results hml hr
              (Or.inl (Bool.eq_false_iff.mpr hdb))]
      · rw [syncDispatch_upstream env oc batch store code results hml hc]

lemma syncDispatch_not_bg (env : DispatchEnv) (oc : Nat) (batch : List ReviewItem)
    (store : List Record) (jid : String) (tr cr q : Nat) :
    (syncDispatch env oc batch store).response ≠ .backgroundQueued jid tr cr q := by
  cases hml : env.mlOutcome with
  | timeout => rw [syncDispatch_timeout env oc batch store hml]; simp
  | connectionFailure =>
      rw [syncDispatch_connectionFailure env oc batch store hml]; simp
  | response code results =>
      by_cases hc : code = 200
      · subst hc
        by_cases hr : results = []
        · subst hr; rw [syncDispatch_noResults env oc batch store hml]; simp
        · by_cases hdb : env.dbConnected = true
          · by_cases hw : env.writeOk = true
            · rw [syncDispatch_insertOk env oc batch store results hml hr hdb hw]; simp
            · rw [syncDispatch_persistFail env oc batch store results hml hr
                (Or.inr (Bool.not_eq_true _ ▸ Bool.eq_false_iff.mpr hw))]
              simp
          · rw [syncDispatch_persistFail env oc batch store results hml hr
              (Or.inl (Bool.eq_false_iff.mpr hdb))]
            simp
      · rw [syncDispatch_upstream env oc batch store code results hml hc]; simp

/-- The persist-failure message is distinct from every upstream-error message. -/
lemma persist_msg_ne_upstream (s : String) :
    "Results processed but failed to save to database" ≠
      "ML service returned error: " ++ s := by
  intro h
  have h₂ : ("Results processed but failed to save to database").data.head?
      = (("ML service returned error: ").data ++ s.data).head? := by
    rw [← String.data_append, ← h]
  have h₃ : some 'R' = some 'M' := h₂
  exact absurd h₃ (by decide)

/-! ### Concrete data for witnesses and counterexamples -/

/-- A sample validated review row. -/
def demoReview : ReviewItem := { text := "great film", movie_name := "Nova" }

/-- A batch above the background threshold. -/
def bigBatch : List ReviewItem := List.replicate 1001 demoReview

/-- Environment with the queue available and a successful enqueue. -/
def envBg : DispatchEnv :=
  { queueAvailable := true, enqueueResult := some "job-1"
    mlOutcome := .response 200 [], dbConnected := true, writeOk := true, now := "t0" }

/-- Environment with the queue unavailable and the ML call timing out. -/
def envTimeout : DispatchEnv :=
  { queueAvailable := false, enqueueResult := none
    mlOutcome := .timeout, dbConnected := true, writeOk := true, now := "t0" }

/-- A sample classified ML result. -/
def demoML : MLItem := { movie_name := "Nova", sentiment := "positive", confidence := 1 }

/-- Environment with the queue unavailable and one successful ML result. -/
def envOk : DispatchEnv :=
  { queueAvailable := false, enqueueResult := none
    mlOutcome := .response 200 [demoML], dbConnected := true, writeOk := true
    now := "2024-01-01" }

/-- Environment with the queue unavailable and a 200 ML response with no results. -/
def envEmpty : DispatchEnv :=
  { queueAvailable := false, enqueueResult := none
    mlOutcome := .response 200 [], dbConnected := true, writeOk := true, now := "t0" }

lemma bigBatch_length : bigBatch.length = 1001 := by
  rw [bigBatch]; exact List.length_replicate _ _

lemma envBg_decision : use_background_processing envBg.queueAvailable bigBatch = true := by
  rw [use_background_processing, bigBatch_length]; decide

/-! ### Claim theorems -/

/-- Claim C1: for every validated non-empty batch, the dispatch decision picks
background mode exactly when the Job Queue is available and the batch exceeds
1000 items; with the queue unavailable the batch goes to the synchronous path
(one ML call with the full batch) whatever its size, and the response is never
a background one. -/
theorem C1_dispatch_decision (env : DispatchEnv) (oc : Nat) (batch : List ReviewItem)
    (store : List Record) (_hne : batch ≠ []) :
    (use_background_processing env.queueAvailable batch = true ↔
      env.queueAvailable = true ∧ batch.length > 1000) ∧
    (env.queueAvailable = false →
      (analyze_csv_dispatch env oc batch store).mlCalls = [batch] ∧
      ∀ jid tr cr q,
        (analyze_csv_dispatch env oc batch store).response ≠
          .backgroundQueued jid tr cr q) := by
  refine ⟨?_, ?_⟩
  · simp [use_background_processing]
  · intro hq
    have hub : use_background_processing env.queueAvailable batch = false := by
      simp [use_background_processing, hq]
    rw [analyze_sync_of_not_bg env oc batch store (Or.inl hub)]
    exact ⟨syncDispatch_mlCalls env oc batch store,
      fun jid tr cr q => syncDispatch_not_bg env oc batch store jid tr cr q⟩

/-- Witness for C1 at a concrete unavailable-queue environment. -/
theorem C1_dispatch_decision_witness :
    (analyze_csv_dispatch envTimeout 1 [demoReview] []).mlCalls = [[demoReview]] :=
  ((C1_dispatch_decision envTimeout 1 [demoReview] [] (by simp)).2 rfl).1

/-- Claim C2 counterexample: on the background path the code enqueues exactly
one job for the whole 1001-item batch - not one job per item - and persists
nothing to the store. -/
theorem C2_per_item_refuted :
    (analyze_csv_dispatch envBg 1001 bigBatch []).enqueuedJobs.length = 1 ∧
    (analyze_csv_dispatch envBg 1001 bigBatch []).enqueuedJobs.length ≠
      bigBatch.length ∧
    (analyze_csv_dispatch envBg 1001 bigBatch []).store = [] ∧
    (analyze_csv_dispatch envBg 1001 bigBatch []).insertCalls = [] := by
  rw [analyze_bg envBg 1001 bigBatch [] "job-1" envBg_decision rfl]
  refine ⟨rfl, ?_, rfl, rfl⟩
  rw [bigBatch_length]
  decide

/-- Claim C2 as amended: on the background path the dispatch enqueues exactly
one job whose payload is the entire batch, persists no record, and a failed
enqueue makes the whole batch fall back to the synchronous path. -/
theorem C2_batch_enqueue (env : DispatchEnv) (oc : Nat) (batch : List ReviewItem)
    (store : List Record)
    (hub : use_background_processing env.queueAvailable batch = true) :
    (∀ jid, env.enqueueResult = some jid →
      analyze_csv_dispatch env oc batch store =
        { response := .backgroundQueued jid oc batch.length batch.length
          store := store
          enqueuedJobs := [("worker_tasks.process_sentiment_batch", batch)]
          mlCalls := [], insertCalls := [] }) ∧
    (env.enqueueResult = none →
      analyze_csv_dispatch env oc batch store = syncDispatch env oc batch store) := by
  refine ⟨fun jid hjid => analyze_bg env oc batch store jid hub hjid, fun h =>
    analyze_sync_of_not_bg env oc batch store (Or.inr h)⟩

/-- Witness for C2 as amended at the concrete background environment. -/
theorem C2_batch_enqueue_witness :
    analyze_csv_dispatch envBg 1001 bigBatch [] =
      { response := .backgroundQueued "job-1" 1001 bigBatch.length bigBatch.length
        store := []
        enqueuedJobs := [("worker_tasks.process_sentiment_batch", bigBatch)]
        mlCalls := [], insertCalls := [] } :=
  (C2_batch_enqueue envBg 1001 bigBatch [] envBg_decision).1 "job-1" rfl

/-- Claim C4: on the synchronous path a transport timeout yields 504, a
connection failure yields 503, a non-200 classifier response yields the
upstream error with nothing persisted, and a storage failure after successful
classification yields the dedicated persist-error message, which differs from
every upstream classification-failure message. -/
theorem C4_sync_error_paths (env : DispatchEnv) (oc : Nat) (batch : List ReviewItem)
    (store : List Record)
    (hsync : use_background_processing env.queueAvailable batch = false ∨
      env.enqueueResult = none) :
    (env.mlOutcome = .timeout →
      analyze_csv_dispatch env oc batch store =
        { response := .httpError 504 "ML service timeout"
          store := store, enqueuedJobs := [], mlCalls := [batch], insertCalls := [] }) ∧
    (env.mlOutcome = .connectionFailure →
      analyze_csv_dispatch env oc batch store =
        { response := .httpError 503 "Cannot connect to ML service"
          store := store, enqueuedJobs := [], mlCalls := [batch], insertCalls := [] }) ∧
    (∀ code results, env.mlOutcome = .response code results → code ≠ 200 →
      analyze_csv_dispatch env oc batch store =
        { response := .httpError 500 ("ML service returned error: " ++ toString code)
          store := store, enqueuedJobs := [], mlCalls := [batch], insertCalls := [] }) ∧
    (∀ results, env.mlOutcome = .response 200 results → results ≠ [] →
      env.dbConnected = false ∨ env.writeOk = false →
      analyze_csv_dispatch env oc batch store =
        { response := .httpError 500 "Results processed but failed to save to database"
          store := store, enqueuedJobs := [], mlCalls := [batch]
          insertCalls := [results.map (stampResult env.now)] } ∧
      ∀ s, "Results processed but failed to save to database" ≠
        "ML service returned error: " ++ s) := by
  rw [analyze_sync_of_not_bg env oc batch store hsync]
  refine ⟨fun h => syncDispatch_timeout env oc batch store h,
    fun h => syncDispatch_connectionFailure env oc batch store h,
    fun code results h hc => syncDispatch_upstream env oc batch store code results h hc,
    fun results h hr hdb =>
      ⟨syncDispatch_persistFail env oc batch store results h hr hdb,
        fun s => persist_msg_ne_upstream s⟩⟩

/-- Witness for C4 at a concrete timeout environment. -/
theorem C4_sync_error_paths_witness :
    analyze_csv_dispatch envTimeout 1 [demoReview] [] =
      { response := .httpError 504 "ML service timeout"
        store := [], enqueuedJobs := [], mlCalls := [[demoReview]]
        insertCalls := [] } :=
  (C4_sync_error_paths envTimeout 1 [demoReview] [] (Or.inl rfl)).1 rfl

/-- Claim C5: a successful synchronous dispatch makes exactly one ML call with
the full batch, stamps every response item with the call timestamp and
synchronous processing mode, performs one insert-batch call, and the store
gains exactly one terminal record per classified item. -/
theorem C5_sync_success (env : DispatchEnv) (oc : Nat) (batch : List ReviewItem)
    (store : List Record) (results : List MLItem)
    (hsync : use_background_processing env.queueAvailable batch = false ∨
      env.enqueueResult = none)
    (hml : env.mlOutcome = .response 200 results) (hr : results ≠ [])
    (hdb : env.dbConnected = true) (hw : env.writeOk = true) :
    analyze_csv_dispatch env oc batch store =
      { response := .syncSuccess results.length oc batch.length results.length
        store := store ++ results.map (stampResult env.now)
        enqueuedJobs := [], mlCalls := [batch]
        insertCalls := [results.map (stampResult env.now)] } ∧
    (results.map (stampResult env.now)).length = results.length ∧
    ∀ r ∈ results.map (stampResult env.now),
      r.timestamp = env.now ∧ r.processing_mode = "synchronous" ∧
      r.job_id = none ∧ r.status = none := by
  refine ⟨?_, List.length_map _ _, ?_⟩
  · rw [analyze_sync_of_not_bg env oc batch store hsync]
    exact syncDispatch_insertOk env oc batch store results hml hr hdb hw
  · intro r hrm
    obtain ⟨m, _, rfl⟩ := List.mem_map.mp hrm
    exact ⟨rfl, rfl, rfl, rfl⟩

/-- Witness for C5 at a concrete one-item success environment. -/
theorem C5_sync_success_witness :
    analyze_csv_dispatch envOk 1 [demoReview] [] =
      { response := .syncSuccess [demoML].length 1 [demoReview].length [demoML].length
        store := [] ++ [demoML].map (stampResult envOk.now)
        enqueuedJobs := [], mlCalls := [[demoReview]]
        insertCalls := [[demoML].map (stampResult envOk.now)] } :=
  (C5_sync_success envOk 1 [demoReview] [] [demoML] (Or.inl rfl) rfl (by simp)
    rfl rfl).1

/-- Claim C10: a 200 classifier response carrying an empty results list makes
the synchronous path answer 500 with the no-results message, with nothing
persisted and no insert attempted. -/
theorem C10_no_results_error (env : DispatchEnv) (oc : Nat) (batch : List ReviewItem)
    (store : List Record)
    (hsync : use_background_processing env.queueAvailable batch = false ∨
      env.enqueueResult = none)
    (hml : env.mlOutcome = .response 200 []) :
    analyze_csv_dispatch env oc batch store =
      { response := .httpError 500 "ML service returned no results"
        store := store, enqueuedJobs := [], mlCalls := [batch]
        insertCalls := [] } := by
  rw [analyze_sync_of_not_bg env oc batch store hsync]
  exact syncDispatch_noResults env oc batch store hml

/-- Witness for C10 at a concrete empty-response environment. -/
theorem C10_no_results_error_witness :
    analyze_csv_dispatch envEmpty 1 [demoReview] [] =
      { response := .httpError 500 "ML service returned no results"
        store := [], enqueuedJobs := [], mlCalls := [[demoReview]]
        insertCalls := [] } :=
  C10_no_results_error envEmpty 1 [demoReview] [] (Or.inl rfl) rfl

/-- A record still pending on a background job, as a worker could store it. -/
def pendingRec : Record :=
  { movie_name := "Nova", sentiment := "", confidence := 0, timestamp := "t0"
    processed_by := "worker", processing_mode := "background"
    job_id := some "j1", status := some "queued" }

/-- A job map in which the backing job of `pendingRec` has finished. -/
def finishedJobs : List (String × JobHandle) :=
  [("j1", { status := "finished", result_sentiment := some "positive"
            result_confidence := some 1 })]

/-- Claim C3 counterexample: with a pending record in the store whose backing
job has finished, GET /results returns the record unchanged - the
specification's reconcile step would have merged the finished outcome, so the
returned list differs from the reconciled one. -/
theorem C3_reconcile_refuted :
    (get_results true [pendingRec]).results = [pendingRec] ∧
    reconcileSpec finishedJobs [pendingRec] ≠ [pendingRec] ∧
    (get_results true [pendingRec]).results ≠ reconcileSpec finishedJobs [pendingRec] := by
  refine ⟨rfl, ?_, ?_⟩ <;> decide

/-- Claim C3 as amended: GET /results performs no reconciliation - it returns
exactly what the store holds (everything when connected, `[]` when not),
always successfully, and never consults the Job Queue. -/
theorem C3_no_reconciliation (dbConnected : Bool) (store : List Record) :
    (get_results dbConnected store).results = fetch_results_from_db dbConnected store ∧
    (dbConnected = true → (get_results dbConnected store).results = store) ∧
    (get_results dbConnected store).success = true := by
  refine ⟨rfl, ?_, rfl⟩
  intro h
  subst h
  rfl

/-- Witness for C3 as amended at the concrete pending store. -/
theorem C3_no_reconciliation_witness :
    (get_results true [pendingRec]).results = [pendingRec] :=
  (C3_no_reconciliation true [pendingRec]).2.1 rfl

/-- Claim C8 counterexample: with the queue available and no such job, the
job-status endpoint answers 500 - not 404 - for an unknown id. -/
theorem C8_unknown_job_refuted :
    get_job_status true [] "missing" =
      .err 500 ("Failed to get job status: No such job: missing") ∧
    ∀ m, get_job_status true [] "missing" ≠ .err 404 m := by
  refine ⟨rfl, ?_⟩
  intro m h
  rw [get_job_status] at h
  simp at h

/-- Claim C8 as amended: the job-status endpoint returns the JobHandle's
state when the job exists, answers 500 (the caught fetch failure) - never
404 - when the id is unknown, and answers 503 with the
background-processing-unavailable message for every id when the queue is
unavailable. -/
theorem C8_job_status (queueAvailable : Bool) (jobs : List (String × JobHandle))
    (job_id : String) :
    (queueAvailable = false →
      get_job_status queueAvailable jobs job_id =
        .err 503 "Background processing not available") ∧
    (∀ h, queueAvailable = true → jobs.lookup job_id = some h →
      get_job_status queueAvailable jobs job_id = .ok job_id h) ∧
    (queueAvailable = true → jobs.lookup job_id = none →
      get_job_status queueAvailable jobs job_id =
        .err 500 ("Failed to get job status: No such job: " ++ job_id) ∧
      ∀ m, get_job_status queueAvailable jobs job_id ≠ .err 404 m) := by
  refine ⟨?_, ?_, ?_⟩
  · intro h
    subst h
    rfl
  · intro h hq hl
    subst hq
    rw [get_job_status]
    simp [hl]
  · intro hq hl
    subst hq
    rw [get_job_status]
    simp [hl]

/-- Witness for C8 as amended at a concrete unavailable queue. -/
theorem C8_job_status_witness :
    get_job_status false [] "any-id" = .err 503 "Background processing not available" :=
  (C8_job_status false [] "any-id").1 rfl

/-- Claim C9 counterexample: with the Result Store degraded, GET /results
reports a plain success carrying an empty list and no error - byte for byte
the response of a healthy empty store - rather than an explicit unavailable
status. -/
theorem C9_unavailable_report_refuted :
    get_results false [pendingRec] =
      { results := [], total_count := 0, success := true, error := none } ∧
    get_results false [pendingRec] = get_results true [] := by
  exact ⟨rfl, rfl⟩

/-- Claim C9 as amended: a startup connection failure degrades instead of
crashing - the database helpers return empty defaults, GET /results reports
an empty success (with no unavailable indication), only the stats helper
reports "disconnected", and the job endpoint answers 503 when the queue is
down. -/
theorem C9_degraded_defaults (store : List Record) (mn sn : Option String)
    (jobs : List (String × JobHandle)) (job_id : String) :
    fetch_results_from_db false store = [] ∧
    search_movies_by_sentiment false store mn sn = [] ∧
    get_sentiment_summary false store mn = [] ∧
    get_results false store =
      { results := [], total_count := 0, success := true, error := none } ∧
    (get_database_stats false store).status = "disconnected" ∧
    get_job_status false jobs job_id =
      .err 503 "Background processing not available" := by
  exact ⟨rfl, rfl, rfl, rfl, rfl, rfl⟩

/-- A stored terminal record used to exercise the search endpoint. -/
def demoSearchRec : Record :=
  { movie_name := "Super Nova", sentiment := "positive", confidence := 1
    timestamp := "t", processed_by := "api_service_sync"
    processing_mode := "synchronous", job_id := none, status := none }

/-- Claim C6: search validates the (stripped, lowered) sentiment against
positive/negative with a 400 answer independent of the store, matches the
movie name by case-insensitive substring and the sentiment exactly, both
filters optional, and empty filters return every record. -/
theorem C6_search_filters (queueAvailable backgroundFlag : Bool)
    (enq : Option String) (store : List Record) (mp sp : String) :
    (lowerStr (trimStr sp) ≠ "" → lowerStr (trimStr sp) ≠ "positive" →
      lowerStr (trimStr sp) ≠ "negative" →
      ∀ (conn : Bool) (st : List Record),
        search_movies queueAvailable enq backgroundFlag conn st mp sp =
          .badRequest "Invalid sentiment") ∧
    ((queueAvailable && backgroundFlag) = false ∨ enq = none →
      lowerStr (trimStr sp) = "" ∨ lowerStr (trimStr sp) = "positive" ∨
        lowerStr (trimStr sp) = "negative" →
      ∃ rs, search_movies queueAvailable enq backgroundFlag true store mp sp =
          .ok rs rs.length ∧
        ∀ r, r ∈ rs ↔ r ∈ store ∧ matchesName (trimStr mp) r = true ∧
          (lowerStr (trimStr sp) ≠ "" → r.sentiment = lowerStr (trimStr sp))) ∧
    ((queueAvailable && backgroundFlag) = false ∨ enq = none →
      trimStr mp = "" → trimStr sp = "" →
      search_movies queueAvailable enq backgroundFlag true store mp sp =
        .ok store store.length) := by
  refine ⟨?_, ?_, ?_⟩
  · intro h1 h2 h3 conn st
    simp only [search_movies]
    rw [if_pos ⟨h1, h2, h3⟩]
  · intro himm hval
    have hnc : ¬(lowerStr (trimStr sp) ≠ "" ∧ lowerStr (trimStr sp) ≠ "positive" ∧
        lowerStr (trimStr sp) ≠ "negative") := by
      rcases hval with h | h | h <;> simp [h]
    have hnone : (if queueAvailable && backgroundFlag then enq else none) = none := by
      rcases himm with h | h
      · rw [h]
        simp
      · rw [h]
        simp
    refine ⟨search_movies_by_sentiment true store
        (if trimStr mp ≠ "" then some (trimStr mp) else none)
        (if lowerStr (trimStr sp) ≠ "" then some (lowerStr (trimStr sp)) else none),
      ?_, ?_⟩
    · simp only [search_movies]
      rw [if_neg hnc, hnone]
    · intro r
      have hpn : ("positive" : String) ≠ "" := by decide
      have hpt : trimStr "positive" = "positive" := by decide
      have hpl : lowerStr (trimStr "positive") = "positive" := by decide
      have hnn : ("negative" : String) ≠ "" := by decide
      have hnt : trimStr "negative" = "negative" := by decide
      have hnl : lowerStr (trimStr "negative") = "negative" := by decide
      have hpl2 : lowerStr "positive" = "positive" := by decide
      have hnl2 : lowerStr "negative" = "negative" := by decide
      by_cases hm : trimStr mp = ""
      · rcases hval with hs | hs | hs
        · simp [search_movies_by_sentiment, hm, hs, List.mem_filter, matchesName_nil]
        · simp [search_movies_by_sentiment, hm, hs, hpn, hpt, hpl, hpl2,
            List.mem_filter, matchesName_nil]
        · simp [search_movies_by_sentiment, hm, hs, hnn, hnt, hnl, hnl2,
            List.mem_filter, matchesName_nil]
      · rcases hval with hs | hs | hs
        · simp [search_movies_by_sentiment, hm, hs, trimStr_idem,
            List.mem_filter]
        · simp [search_movies_by_sentiment, hm, hs, hpn, hpt, hpl, hpl2, trimStr_idem,
            List.mem_filter]
        · simp [search_movies_by_sentiment, hm, hs, hnn, hnt, hnl, hnl2, trimStr_idem,
            List.mem_filter]
  · intro himm hm0 hs0
    have hs : lowerStr (trimStr sp) = "" := by rw [hs0]; rfl
    have hnc : ¬(lowerStr (trimStr sp) ≠ "" ∧ lowerStr (trimStr sp) ≠ "positive" ∧
        lowerStr (trimStr sp) ≠ "negative") := by simp [hs]
    have hnone : (if queueAvailable && backgroundFlag then enq else none) = none := by
      rcases himm with h | h
      · rw [h]
        simp
      · rw [h]
        simp
    simp only [search_movies]
    rw [if_neg hnc, hnone]
    simp [search_movies_by_sentiment, hm0, hs]

/-- Witness for C6 with empty filters over a one-record store. -/
theorem C6_search_filters_witness :
    search_movies false none false true [demoSearchRec] "" "" =
      .ok [demoSearchRec] [demoSearchRec].length :=
  (C6_search_filters false false none [demoSearchRec] "" "").2.2 (Or.inl rfl)
    rfl rfl

/-- Per-group invariant of the second group stage: the pushed counts sum to
the group's total. -/
lemma stage2_count_sum (s : List Stage1Entry) :
    ∀ g ∈ stage2 s, (g.sentiments.map SentimentEntry.count).sum = g.total_reviews := by
  intro g hg
  obtain ⟨m, _, rfl⟩ := List.mem_map.mp hg
  simp only [List.map_map]
  rfl

/-- Claim C7: the summary is the two-stage aggregation, sorted ascending by
movie name; each group's per-sentiment counts sum to its total, and with no
name filter the group totals sum to the store size, with no double counting. -/
theorem C7_summary_aggregation (store : List Record) (movie_name : Option String) :
    (∀ g ∈ get_sentiment_summary true store movie_name,
      (g.sentiments.map SentimentEntry.count).sum = g.total_reviews) ∧
    List.Sorted groupLe (get_sentiment_summary true store movie_name) ∧
    (movie_name = none →
      ((get_sentiment_summary true store movie_name).map
        SummaryGroup.total_reviews).sum = store.length) := by
  refine ⟨?_, ?_, ?_⟩
  · intro g hg
    simp only [get_sentiment_summary, Bool.true_eq_false, if_false] at hg
    exact stage2_count_sum _ g ((List.perm_insertionSort groupLe _).mem_iff.mp hg)
  · simp only [get_sentiment_summary, Bool.true_eq_false, if_false]
    exact List.sorted_insertionSort groupLe _
  · intro h
    subst h
    simp only [get_sentiment_summary, Bool.true_eq_false, if_false]
    have hperm := (List.perm_insertionSort groupLe (stage2 (stage1 store))).map
      SummaryGroup.total_reviews
    rw [hperm.sum_eq]
    have h₂ : ((stage2 (stage1 store)).map SummaryGroup.total_reviews).sum
        = ((stage1 store).map Stage1Entry.count).sum := by
      rw [stage2, List.map_map]
      exact sum_fiber Stage1Entry.movie_name Stage1Entry.count (stage1 store)
    rw [h₂, stage1, List.map_map]
    exact sum_fiber_length key1 store

/-- Records for the summary witness: two movies, three reviews. -/
def demoSumA : Record :=
  { movie_name := "Alpha", sentiment := "positive", confidence := 1
    timestamp := "t", processed_by := "w", processing_mode := "synchronous"
    job_id := none, status := none }

def demoSumB : Record :=
  { movie_name := "Beta", sentiment := "negative", confidence := 0
    timestamp := "t", processed_by := "w", processing_mode := "synchronous"
    job_id := none, status := none }

def demoSummaryStore : List Record := [demoSumA, demoSumB, demoSumA]

/-- Witness for C7 with no filter over a three-record store. -/
theorem C7_summary_aggregation_witness :
    ((get_sentiment_summary true demoSummaryStore none).map
      SummaryGroup.total_reviews).sum = demoSummaryStore.length :=
  (C7_summary_aggregation demoSummaryStore none).2.2 rfl

end MovieSentiment
